import Mathlib

/-!
Shallow embedding of `Main.py` (Roblox Activity Tracker) together with its
configuration module `Assets/Config.py`.

JSON values as parsed by Python's `json` module are modelled by `Json`;
Python `dict`/`list` access, truthiness, equality and `str()` are modelled
explicitly, including the exceptions (`KeyError`, `TypeError`,
`AttributeError`, `IndexError`) that the Python operations raise on values of
unexpected shape.  Fallible computations return `Except PyErr`; an uncaught
`PyErr` corresponds to the Python process crashing with a traceback.
-/

/-- Errors Python raises on ill-shaped values: `d[k]` on a dict without key
`k` raises `KeyError`; subscripting or iterating a non-subscriptable value
raises `TypeError`; calling `.get` on a non-dict raises `AttributeError`;
`l[i]` past the end raises `IndexError`. -/
inductive PyErr where
  | keyError
  | typeError
  | attributeError
  | indexError
  deriving DecidableEq

mutual
/-- A JSON value as produced by `response.json()` / `json.load`.  JSON
numbers are modelled as integers (no claim involves fractional numbers). -/
inductive Json where
  | null
  | bool (b : Bool)
  | num (n : Int)
  | str (s : String)
  | arr (xs : JsonList)
  | obj (fs : JsonFields)
  deriving DecidableEq
/-- Elements of a JSON array. -/
inductive JsonList where
  | nil
  | cons (head : Json) (tail : JsonList)
  deriving DecidableEq
/-- Fields of a JSON object (a parsed Python dict: keys are unique,
insertion order preserved). -/
inductive JsonFields where
  | nil
  | cons (key : String) (value : Json) (tail : JsonFields)
  deriving DecidableEq
end

/-- Build a `JsonList` from a Lean list (notation helper for inputs). -/
def JsonList.ofList : List Json → JsonList
  | [] => .nil
  | x :: rest => .cons x (JsonList.ofList rest)

/-- The Lean list of elements of a `JsonList`. -/
def JsonList.toList : JsonList → List Json
  | .nil => []
  | .cons x rest => x :: rest.toList

/-- Build `JsonFields` from a Lean list of key/value pairs. -/
def JsonFields.ofList : List (String × Json) → JsonFields
  | [] => .nil
  | (k, v) :: rest => .cons k v (JsonFields.ofList rest)

/-- The keys of a JSON object in order (what iterating a Python dict
yields). -/
def JsonFields.keys : JsonFields → List String
  | .nil => []
  | .cons k _ rest => k :: rest.keys

/-- A JSON array literal. -/
def jarr (l : List Json) : Json := .arr (.ofList l)

/-- A JSON object literal. -/
def jobj (l : List (String × Json)) : Json := .obj (.ofList l)

namespace Json

/-- Field lookup on a parsed JSON object (keys are unique after parsing,
so first match equals Python dict lookup). -/
def jLookup : JsonFields → String → Option Json
  | .nil, _ => none
  | .cons k v rest, key => if k = key then some v else jLookup rest key

/-- Python truthiness of a parsed JSON value (`if x:`). -/
def truthy : Json → Bool
  | .null => false
  | .bool b => b
  | .num n => decide (n ≠ 0)
  | .str s => decide (s ≠ "")
  | .arr xs => decide (xs ≠ .nil)
  | .obj fs => decide (fs ≠ .nil)

/-- The numeric view Python uses for `==` between numbers and booleans
(`True == 1`, `False == 0`). -/
def asNum? : Json → Option Int
  | .bool b => some (if b then 1 else 0)
  | .num n => some n
  | _ => none

/-- Python `==` on parsed JSON values.  Numeric cross-type equality between
booleans and numbers is modelled at top level; for container values the
comparison is structural (Python's key-order-insensitive dict equality and
nested numeric coercion are not reproduced — no claim compares container
states). -/
def pyEq (a b : Json) : Bool :=
  match a.asNum?, b.asNum? with
  | some x, some y => decide (x = y)
  | _, _ => decide (a = b)

mutual
/-- Python `repr()` of a parsed JSON value (quote escaping inside strings
is not reproduced; no claim depends on it). -/
def pyRepr : Json → String
  | .null => "None"
  | .bool true => "True"
  | .bool false => "False"
  | .num n => toString n
  | .str s => "\x27" ++ s ++ "\x27"
  | .arr xs => "[" ++ pyReprList xs ++ "]"
  | .obj fs => "\x7b" ++ pyReprFields fs ++ "\x7d"

/-- `repr` of array elements, comma separated. -/
def pyReprList : JsonList → String
  | .nil => ""
  | .cons x .nil => pyRepr x
  | .cons x (.cons y rest) => pyRepr x ++ ", " ++ pyReprList (.cons y rest)

/-- `repr` of dict items, comma separated. -/
def pyReprFields : JsonFields → String
  | .nil => ""
  | .cons k v .nil => "\x27" ++ k ++ "\x27: " ++ pyRepr v
  | .cons k v (.cons k2 v2 rest) =>
      "\x27" ++ k ++ "\x27: " ++ pyRepr v ++ ", " ++ pyReprFields (.cons k2 v2 rest)
end

/-- Python `str()` of a parsed JSON value, as used by f-strings and by
`str(presence[...])` in the loop. -/
def pyStr : Json → String
  | .str s => s
  | j => pyRepr j

/-- Python subscript `j[key]` with a string key: on a dict, the value or
`KeyError`; on any other value, `TypeError`. -/
def item (j : Json) (key : String) : Except PyErr Json :=
  match j with
  | .obj fs =>
    match jLookup fs key with
    | some v => .ok v
    | none => .error .keyError
  | _ => .error .typeError

/-- Python `j.get(key, default)`: on a dict, the value or the default; on
any other value, `AttributeError` (`.get` is a dict method). -/
def dictGetD (j : Json) (key : String) (dflt : Json) : Except PyErr Json :=
  match j with
  | .obj fs => .ok ((jLookup fs key).getD dflt)
  | _ => .error .attributeError

/-- Python subscript `j[i]` with integer index `i ≥ 0`. -/
def index (j : Json) (i : Nat) : Except PyErr Json :=
  match j with
  | .arr xs =>
    match xs.toList.get? i with
    | some v => .ok v
    | none => .error .indexError
  | .str s =>
    match s.toList.get? i with
    | some c => .ok (.str (String.singleton c))
    | none => .error .indexError
  | .obj _ => .error .keyError
  | _ => .error .typeError

/-- Python iteration `for x in j`: arrays yield elements, strings yield
one-character strings, dicts yield their keys; other values raise
`TypeError`. -/
def pyIterList : Json → Except PyErr (List Json)
  | .arr xs => .ok xs.toList
  | .str s => .ok (s.toList.map fun c => Json.str (String.singleton c))
  | .obj fs => .ok (fs.keys.map Json.str)
  | _ => .error .typeError

/-- Python `a or b` on values: the first operand if truthy, else the
second. -/
def pyOr (a b : Json) : Json := if a.truthy then a else b

end Json

/-- `a or b or s` where `s` is already a Python `str` (the
`display_name or username or user_id` pattern), rendered by the f-string. -/
def pyOrStr (a b : Json) (s : String) : String :=
  if (Json.pyOr a b).truthy then (Json.pyOr a b).pyStr else s

/-- Outcome of one HTTP call made through `requests`: either some
`requests.RequestException` was raised (connection failure, the
`raise_for_status` of a non-2xx response, or an undecodable JSON body), or a
response body was obtained and parsed. -/
inductive HttpOutcome where
  | reqError
  | ok (body : Json)

/-- `get_presence` (Main.py lines 54-69): POST to the presence endpoint;
returns `response.json().get('userPresences', [])` on success and `[]` when a
`requests.RequestException` is raised.  A successful body that is not a dict
makes the uncaught `.get` raise `AttributeError`. -/
def get_presence : HttpOutcome → Except PyErr Json
  | .reqError => .ok (jarr [])
  | .ok body => body.dictGetD "userPresences" (jarr [])

/-- `get_game_info` (Main.py lines 72-85): GET the game info for a universe
id; returns `data[0].get('name', "Unknown Game") if data else "Unknown
Game"` with `data = response.json().get('data', [])`, and `"Unknown Game"`
when a `requests.RequestException` is raised. -/
def get_game_info : HttpOutcome → Except PyErr Json
  | .reqError => .ok (.str "Unknown Game")
  | .ok body =>
    match body.dictGetD "data" (jarr []) with
    | .error e => .error e
    | .ok data =>
      if data.truthy then
        match data.index 0 with
        | .error e => .error e
        | .ok first => first.dictGetD "name" (.str "Unknown Game")
      else .ok (.str "Unknown Game")

/-- `get_user_info` (Main.py lines 88-101): GET the user's profile; returns
`(data.get("name"), data.get("displayName"))` on success and `(None, None)`
when a `requests.RequestException` is raised. -/
def get_user_info : HttpOutcome → Except PyErr (Json × Json)
  | .reqError => .ok (.null, .null)
  | .ok body =>
    match body.dictGetD "name" .null with
    | .error e => .error e
    | .ok n =>
      match body.dictGetD "displayName" .null with
      | .error e => .error e
      | .ok d => .ok (n, d)

/-- A field of a Discord embed payload. -/
structure EmbedField where
  name : String
  value : String
  inline : Bool
  deriving DecidableEq

/-- A Discord embed payload as built by `main` / `build_embed_in_game`. -/
structure Embed where
  title : String
  color : Nat
  description : Option String := none
  url : Option String := none
  fields : List EmbedField := []
  deriving DecidableEq

/-- `send_webhook` (Main.py lines 104-112): POSTs one embed to the Discord
webhook via module-level `requests.post`; a `requests.RequestException`
(including non-2xx via `raise_for_status`) is caught and logged, so the
function never raises and returns `None` either way.  The returned value is
the log line written on failure. -/
def send_webhook (_embed : Embed) (outcome : HttpOutcome) : Option String :=
  match outcome with
  | .reqError => some "Webhook failed"
  | .ok _ => none

/-- `build_embed_in_game` (Main.py lines 115-145).  `presence['userId']` is
read (and can raise) though its value is unused; the join-link branch is
taken when `place_id and game_id` is truthy. -/
def build_embed_in_game (presence game_name username display_name : Json) :
    Except PyErr Embed :=
  match presence.item "userId" with
  | .error e => .error e
  | .ok _user_id =>
    match presence.dictGetD "placeId" .null with
    | .error e => .error e
    | .ok place_id =>
      match presence.dictGetD "gameId" .null with
      | .error e => .error e
      | .ok game_id =>
        if place_id.truthy && game_id.truthy then
          let join_url := "https://www.roblox.com/games/start?placeId=" ++
            place_id.pyStr ++ "&gameId=" ++ game_id.pyStr
          let game_page_url := "https://www.roblox.com/games/" ++ place_id.pyStr
          .ok { title := (Json.pyOr display_name username).pyStr ++ " is now in-game",
                color := 0x00FF00,
                description := some ("**" ++ game_name.pyStr ++ "**"),
                url := some join_url,
                fields := [
                  { name := "Join Server",
                    value := "[Click Here](" ++ join_url ++ ")", inline := true },
                  { name := "Game Page",
                    value := "[View Game](" ++ game_page_url ++ ")", inline := true }] }
        else
          .ok { title := (Json.pyOr display_name username).pyStr ++ " is in a game",
                color := 0x00FFFF,
                description := some "Joins are off, check badges for hint of game." }

/-- `last_states`: the Python dict mapping user-id strings to the most
recently observed state value. -/
abbrev StateTable := List (String × Json)

/-- `last_states.get(user_id)` before defaulting: the stored value, if
any. -/
def stLookup : StateTable → String → Option Json
  | [], _ => none
  | (k, v) :: rest, u => if k = u then some v else stLookup rest u

/-- `last_states.get(user_id)`: Python returns `None` when the key is
absent, so the result is a plain value with `null` for "absent". -/
def stGetD (st : StateTable) (u : String) : Json := (stLookup st u).getD .null

/-- `last_states[user_id] = state`: replace an existing entry in place, or
append a new one. -/
def stSet : StateTable → String → Json → StateTable
  | [], u, v => [(u, v)]
  | (k, w) :: rest, u, v =>
    if k = u then (u, v) :: rest else (k, w) :: stSet rest u v

/-- One iteration of the `for presence in presences` body (Main.py lines
173-209), given the results the two fetchers would return (`ui` for
`get_user_info` keyed by the user-id string, `gi` for `get_game_info` keyed
by the universe id) and the delivery outcome `wh` of a webhook POST.  The
first component of the result lists each `send_webhook` call made, tagged
with the `user_id` of the iteration that made it. -/
def processRecord (ui : String → Except PyErr (Json × Json))
    (gi : Json → Except PyErr Json) (wh : HttpOutcome)
    (p : Json) (st : StateTable) :
    Except PyErr (List (String × Embed) × StateTable) :=
  match p.item "userId" with
  | .error e => .error e
  | .ok uidJ =>
    let user_id := uidJ.pyStr
    match p.dictGetD "userPresenceType" (.num 0) with
    | .error e => .error e
    | .ok state =>
      let last_state := stGetD st user_id
      if state.pyEq last_state then
        .ok ([], st)
      else
        match ui user_id with
        | .error e => .error e
        | .ok (username, display_name) =>
          if state.pyEq (.num 0) then
            let embed : Embed :=
              { title := pyOrStr display_name username user_id ++ " is Offline",
                color := 0xFF0000 }
            let _log := send_webhook embed wh
            .ok ([(user_id, embed)], stSet st user_id state)
          else if state.pyEq (.num 1) then
            let embed : Embed :=
              { title := pyOrStr display_name username user_id ++
                  " is Online (not in-game)",
                color := 0xFFFF00 }
            let _log := send_webhook embed wh
            .ok ([(user_id, embed)], stSet st user_id state)
          else if state.pyEq (.num 2) then
            match p.dictGetD "universeId" .null with
            | .error e => .error e
            | .ok universe_id =>
              match (if universe_id.truthy then gi universe_id
                     else .ok (.str "Unknown Game")) with
              | .error e => .error e
              | .ok game_name =>
                match build_embed_in_game p game_name username display_name with
                | .error e => .error e
                | .ok embed =>
                  let _log := send_webhook embed wh
                  .ok ([(user_id, embed)], stSet st user_id state)
          else
            .ok ([], stSet st user_id state)

/-- The whole `for presence in presences` loop: process the records in
order, threading `last_states` and accumulating the webhook calls; `wh k`
is the delivery outcome of the webhook POST made while processing record
`k` (at most one per record). -/
def processAll (ui : String → Except PyErr (Json × Json))
    (gi : Json → Except PyErr Json) (wh : Nat → HttpOutcome) (k : Nat) :
    List Json → StateTable → Except PyErr (List (String × Embed) × StateTable)
  | [], st => .ok ([], st)
  | p :: rest, st =>
    match processRecord ui gi (wh k) p st with
    | .error e => .error e
    | .ok (out, st') =>
      match processAll ui gi wh (k + 1) rest st' with
      | .error e => .error e
      | .ok (outs, st'') => .ok (out ++ outs, st'')

/-- One cycle of the `while True` loop (Main.py lines 170-211): fetch the
batch presence (`outcome` is the HTTP outcome of that POST), iterate over
the returned records, and process each. -/
def runCycle (ui : String → Except PyErr (Json × Json))
    (gi : Json → Except PyErr Json) (wh : Nat → HttpOutcome)
    (outcome : HttpOutcome) (st : StateTable) :
    Except PyErr (List (String × Embed) × StateTable) :=
  match get_presence outcome with
  | .error e => .error e
  | .ok presences =>
    match presences.pyIterList with
    | .error e => .error e
    | .ok records => processAll ui gi wh 0 records st

/-- The retry configuration built in `create_authenticated_session`
(Main.py lines 27-32). -/
structure RetryConfig where
  total : Nat
  backoff_factor : Nat
  status_forcelist : List Nat
  allowed_methods : List String
  deriving DecidableEq

/-- `Retry(total=3, backoff_factor=1, status_forcelist=[429, 500, 502, 503,
504], allowed_methods=["HEAD", "GET", "OPTIONS", "POST"])`. -/
def retry_strategy : RetryConfig :=
  { total := 3
    backoff_factor := 1
    status_forcelist := [429, 500, 502, 503, 504]
    allowed_methods := ["HEAD", "GET", "OPTIONS", "POST"] }

/-- Modelled from the spec: the retry policy §4.1 describes — up to 3
attempts, exponential backoff starting at 1 time unit, statuses
{429, 500, 502, 503, 504}, methods {GET, HEAD, OPTIONS, POST}. -/
def specRetryPolicy : RetryConfig :=
  { total := 3
    backoff_factor := 1
    status_forcelist := [429, 500, 502, 503, 504]
    allowed_methods := ["GET", "HEAD", "OPTIONS", "POST"] }

/-- The outbound HTTP calls the program makes. -/
inductive OutboundCall where
  | csrfSeed
  | presenceFetch
  | gameInfoFetch
  | userInfoFetch
  | webhookPost
  deriving DecidableEq

/-- The two ways the source issues an HTTP request: through the `session`
built by `create_authenticated_session` (which mounts the retry adapter on
`http://` and `https://`), or through module-level `requests.post` (a fresh
one-shot session with no retry adapter). -/
inductive HttpClient where
  | authenticatedSession
  | bareRequests
  deriving DecidableEq

/-- Which client each outbound call is issued through: the CSRF seed uses
`session.post` (line 39), the presence fetch `session.post` (line 60), the
game-info fetch `session.get` (line 79), the user-info fetch `session.get`
(line 95), and `send_webhook` uses module-level `requests.post`
(line 109). -/
def clientOf : OutboundCall → HttpClient
  | .csrfSeed => .authenticatedSession
  | .presenceFetch => .authenticatedSession
  | .gameInfoFetch => .authenticatedSession
  | .userInfoFetch => .authenticatedSession
  | .webhookPost => .bareRequests

/-- A `get_user_info` environment that always reports the fetch-failure
fallback `(None, None)` (used to instantiate theorems at concrete inputs). -/
def uiConst : String → Except PyErr (Json × Json) := fun _ => .ok (.null, .null)

/-- A `get_user_info` environment that always succeeds with a username and a
display name. -/
def uiNamed : String → Except PyErr (Json × Json) :=
  fun _ => .ok (.str "bob", .str "Bob")

/-- A `get_game_info` environment that always reports the fetch-failure
fallback `"Unknown Game"`. -/
def giConst : Json → Except PyErr Json := fun _ => .ok (.str "Unknown Game")

/-- A webhook-delivery environment where every POST succeeds. -/
def whConst : Nat → HttpOutcome := fun _ => .ok (jobj [])

/-- A webhook-delivery environment where every POST fails. -/
def whFail : Nat → HttpOutcome := fun _ => .reqError

/-! ### Helper lemmas -/

theorem stLookup_stSet_self (st : StateTable) (u : String) (v : Json) :
    stLookup (stSet st u v) u = some v := by
  induction st with
  | nil => simp [stSet, stLookup]
  | cons hd tl ih =>
    obtain ⟨k, w⟩ := hd
    by_cases h : k = u
    · simp [stSet, stLookup, h]
    · simp [stSet, stLookup, h, ih]

theorem stLookup_stSet_ne (st : StateTable) (u w : String) (v : Json)
    (h : u ≠ w) : stLookup (stSet st u v) w = stLookup st w := by
  induction st with
  | nil => simp [stSet, stLookup, h]
  | cons hd tl ih =>
    obtain ⟨k, x⟩ := hd
    by_cases hk : k = u
    · subst hk
      simp [stSet, stLookup, h]
    · simp [stSet, stLookup, hk, ih]

theorem pyEq_num_ne (a : Json) (m n : Int) (hmn : m ≠ n)
    (h : a.pyEq (.num m) = true) : a.pyEq (.num n) = false := by
  unfold Json.pyEq at h ⊢
  rw [show (Json.num m).asNum? = some m from rfl] at h
  rw [show (Json.num n).asNum? = some n from rfl]
  cases ha : a.asNum? with
  | none =>
    rw [ha] at h
    have hx : a = Json.num m := by simpa using h
    subst hx
    simp [Json.asNum?] at ha
  | some x =>
    rw [ha] at h
    have hx : x = m := by simpa using h
    subst hx
    simpa using hmn

theorem build_embed_eq (fs : JsonFields) (gname un dn uid : Json)
    (hu : Json.jLookup fs "userId" = some uid) :
    build_embed_in_game (.obj fs) gname un dn = .ok (
      if ((Json.jLookup fs "placeId").getD .null).truthy &&
         ((Json.jLookup fs "gameId").getD .null).truthy then
        { title := (Json.pyOr dn un).pyStr ++ " is now in-game",
          color := 0x00FF00,
          description := some ("**" ++ gname.pyStr ++ "**"),
          url := some ("https://www.roblox.com/games/start?placeId=" ++
            ((Json.jLookup fs "placeId").getD .null).pyStr ++ "&gameId=" ++
            ((Json.jLookup fs "gameId").getD .null).pyStr),
          fields := [
            { name := "Join Server",
              value := "[Click Here](" ++
                ("https://www.roblox.com/games/start?placeId=" ++
                 ((Json.jLookup fs "placeId").getD .null).pyStr ++ "&gameId=" ++
                 ((Json.jLookup fs "gameId").getD .null).pyStr) ++ ")",
              inline := true },
            { name := "Game Page",
              value := "[View Game](" ++
                ("https://www.roblox.com/games/" ++
                 ((Json.jLookup fs "placeId").getD .null).pyStr) ++ ")",
              inline := true }] }
      else
        { title := (Json.pyOr dn un).pyStr ++ " is in a game",
          color := 0x00FFFF,
          description := some "Joins are off, check badges for hint of game." }) := by
  unfold build_embed_in_game
  simp only [Json.item, hu, Json.dictGetD]
  split <;> rfl

theorem processRecord_unchanged (ui : String → Except PyErr (Json × Json))
    (gi : Json → Except PyErr Json) (wh : HttpOutcome) (st : StateTable)
    (fs : JsonFields) (uid : Json)
    (hu : Json.jLookup fs "userId" = some uid)
    (heq : ((Json.jLookup fs "userPresenceType").getD (.num 0)).pyEq
      (stGetD st uid.pyStr) = true) :
    processRecord ui gi wh (.obj fs) st = .ok ([], st) := by
  unfold processRecord
  simp [Json.item, hu, Json.dictGetD, heq]

theorem processRecord_offline (ui : String → Except PyErr (Json × Json))
    (gi : Json → Except PyErr Json) (wh : HttpOutcome) (st : StateTable)
    (fs : JsonFields) (uid un dn st0 : Json)
    (hu : Json.jLookup fs "userId" = some uid)
    (hst0 : (Json.jLookup fs "userPresenceType").getD (.num 0) = st0)
    (hui : ui uid.pyStr = .ok (un, dn))
    (hdiff : st0.pyEq (stGetD st uid.pyStr) = false)
    (h0 : st0.pyEq (.num 0) = true) :
    processRecord ui gi wh (.obj fs) st =
      .ok ([(uid.pyStr,
            { title := pyOrStr dn un uid.pyStr ++ " is Offline",
              color := 0xFF0000 })],
           stSet st uid.pyStr st0) := by
  unfold processRecord
  simp [Json.item, hu, Json.dictGetD, hst0, hdiff, hui, h0]

theorem processRecord_online (ui : String → Except PyErr (Json × Json))
    (gi : Json → Except PyErr Json) (wh : HttpOutcome) (st : StateTable)
    (fs : JsonFields) (uid un dn st0 : Json)
    (hu : Json.jLookup fs "userId" = some uid)
    (hst0 : (Json.jLookup fs "userPresenceType").getD (.num 0) = st0)
    (hui : ui uid.pyStr = .ok (un, dn))
    (hdiff : st0.pyEq (stGetD st uid.pyStr) = false)
    (h1 : st0.pyEq (.num 1) = true) :
    processRecord ui gi wh (.obj fs) st =
      .ok ([(uid.pyStr,
            { title := pyOrStr dn un uid.pyStr ++ " is Online (not in-game)",
              color := 0xFFFF00 })],
           stSet st uid.pyStr st0) := by
  have h0 : st0.pyEq (.num 0) = false := pyEq_num_ne st0 1 0 (by decide) h1
  unfold processRecord
  simp [Json.item, hu, Json.dictGetD, hst0, hdiff, hui, h0, h1]

theorem processRecord_ingame (ui : String → Except PyErr (Json × Json))
    (gi : Json → Except PyErr Json) (wh : HttpOutcome) (st : StateTable)
    (fs : JsonFields) (uid un dn st0 : Json)
    (hu : Json.jLookup fs "userId" = some uid)
    (hst0 : (Json.jLookup fs "userPresenceType").getD (.num 0) = st0)
    (hui : ui uid.pyStr = .ok (un, dn))
    (hgi : ∀ v, ∃ g, gi v = .ok g)
    (hdiff : st0.pyEq (stGetD st uid.pyStr) = false)
    (h2 : st0.pyEq (.num 2) = true) :
    ∃ gname e, build_embed_in_game (.obj fs) gname un dn = .ok e ∧
      processRecord ui gi wh (.obj fs) st =
        .ok ([(uid.pyStr, e)], stSet st uid.pyStr st0) := by
  have h0 : st0.pyEq (.num 0) = false := pyEq_num_ne st0 2 0 (by decide) h2
  have h1 : st0.pyEq (.num 1) = false := pyEq_num_ne st0 2 1 (by decide) h2
  unfold processRecord
  simp only [Json.item, hu, Json.dictGetD, hst0, hdiff, hui, h0, h1, h2]
  by_cases ht : ((Json.jLookup fs "universeId").getD .null).truthy
  · obtain ⟨g, hg⟩ := hgi ((Json.jLookup fs "universeId").getD .null)
    refine ⟨g, _, build_embed_eq fs g un dn uid hu, ?_⟩
    simp [ht, hg, build_embed_eq fs g un dn uid hu]
  · refine ⟨.str "Unknown Game", _,
      build_embed_eq fs (.str "Unknown Game") un dn uid hu, ?_⟩
    simp [ht, build_embed_eq fs (.str "Unknown Game") un dn uid hu]

theorem processRecord_silent (ui : String → Except PyErr (Json × Json))
    (gi : Json → Except PyErr Json) (wh : HttpOutcome) (st : StateTable)
    (fs : JsonFields) (uid un dn st0 : Json)
    (hu : Json.jLookup fs "userId" = some uid)
    (hst0 : (Json.jLookup fs "userPresenceType").getD (.num 0) = st0)
    (hui : ui uid.pyStr = .ok (un, dn))
    (hdiff : st0.pyEq (stGetD st uid.pyStr) = false)
    (h0 : st0.pyEq (.num 0) = false) (h1 : st0.pyEq (.num 1) = false)
    (h2 : st0.pyEq (.num 2) = false) :
    processRecord ui gi wh (.obj fs) st = .ok ([], stSet st uid.pyStr st0) := by
  unfold processRecord
  simp [Json.item, hu, Json.dictGetD, hst0, hdiff, hui, h0, h1, h2]

theorem processRecord_frame (ui : String → Except PyErr (Json × Json))
    (gi : Json → Except PyErr Json) (wh : HttpOutcome)
    (p : Json) (st : StateTable) (out : List (String × Embed))
    (st' : StateTable) (u : String)
    (h : processRecord ui gi wh p st = .ok (out, st'))
    (hne : ∀ uidJ, p.item "userId" = .ok uidJ → uidJ.pyStr ≠ u) :
    stLookup st' u = stLookup st u ∧ ∀ x ∈ out, x.1 ≠ u := by
  unfold processRecord at h
  cases hui : p.item "userId" with
  | error e => rw [hui] at h; exact absurd h (by simp)
  | ok uidJ =>
  rw [hui] at h
  have hneu : uidJ.pyStr ≠ u := hne uidJ hui
  cases hty : p.dictGetD "userPresenceType" (.num 0) with
  | error e => rw [hty] at h; exact absurd h (by simp)
  | ok state =>
  rw [hty] at h
  by_cases hpe : state.pyEq (stGetD st uidJ.pyStr) = true
  · simp only [hpe, if_true] at h
    simp only [Except.ok.injEq, Prod.mk.injEq] at h
    obtain ⟨h1, h2⟩ := h
    subst h1; subst h2
    simp
  · simp only [Bool.not_eq_true] at hpe
    simp only [hpe, Bool.false_eq_true, if_false] at h
    cases hud : ui uidJ.pyStr with
    | error e => rw [hud] at h; exact absurd h (by simp)
    | ok pair =>
    obtain ⟨un, dn⟩ := pair
    rw [hud] at h
    by_cases h0 : state.pyEq (.num 0) = true
    · simp only [h0, if_true, Except.ok.injEq, Prod.mk.injEq] at h
      obtain ⟨h1, h2⟩ := h
      subst h1; subst h2
      refine ⟨stLookup_stSet_ne st uidJ.pyStr u state hneu, ?_⟩
      simp [hneu]
    · simp only [Bool.not_eq_true] at h0
      simp only [h0, Bool.false_eq_true, if_false] at h
      by_cases h1 : state.pyEq (.num 1) = true
      · simp only [h1, if_true, Except.ok.injEq, Prod.mk.injEq] at h
        obtain ⟨ha, hb⟩ := h
        subst ha; subst hb
        refine ⟨stLookup_stSet_ne st uidJ.pyStr u state hneu, ?_⟩
        simp [hneu]
      · simp only [Bool.not_eq_true] at h1
        simp only [h1, Bool.false_eq_true, if_false] at h
        by_cases h2 : state.pyEq (.num 2) = true
        · simp only [h2, if_true] at h
          cases huv : p.dictGetD "universeId" .null with
          | error e => simp only [huv] at h; exact absurd h (by simp)
          | ok universe_id =>
          simp only [huv] at h
          cases hgm : (if universe_id.truthy = true then gi universe_id
              else Except.ok (Json.str "Unknown Game")) with
          | error e => simp only [hgm] at h; exact absurd h (by simp)
          | ok game_name =>
          simp only [hgm] at h
          cases hbe : build_embed_in_game p game_name un dn with
          | error e => simp only [hbe] at h; exact absurd h (by simp)
          | ok embed =>
          simp only [hbe] at h
          simp only [Except.ok.injEq, Prod.mk.injEq] at h
          obtain ⟨ha, hb⟩ := h
          subst ha; subst hb
          refine ⟨stLookup_stSet_ne st uidJ.pyStr u state hneu, ?_⟩
          simp [hneu]
        · simp only [Bool.not_eq_true] at h2
          simp only [h2, Bool.false_eq_true, if_false, Except.ok.injEq,
            Prod.mk.injEq] at h
          obtain ⟨ha, hb⟩ := h
          subst ha; subst hb
          exact ⟨stLookup_stSet_ne st uidJ.pyStr u state hneu, by simp⟩

theorem processAll_frame (ui : String → Except PyErr (Json × Json))
    (gi : Json → Except PyErr Json) (wh : Nat → HttpOutcome)
    (records : List Json) (k : Nat) (st : StateTable)
    (out : List (String × Embed)) (st' : StateTable) (u : String)
    (h : processAll ui gi wh k records st = .ok (out, st'))
    (hne : ∀ p ∈ records, ∀ uidJ, p.item "userId" = .ok uidJ → uidJ.pyStr ≠ u) :
    stLookup st' u = stLookup st u ∧ ∀ x ∈ out, x.1 ≠ u := by
  induction records generalizing k st out st' with
  | nil =>
    simp only [processAll, Except.ok.injEq, Prod.mk.injEq] at h
    obtain ⟨h1, h2⟩ := h
    subst h1; subst h2
    simp
  | cons p rest ih =>
    unfold processAll at h
    cases hr : processRecord ui gi (wh k) p st with
    | error e => simp only [hr] at h; exact absurd h (by simp)
    | ok pr =>
    obtain ⟨out1, st1⟩ := pr
    simp only [hr] at h
    cases ha : processAll ui gi wh (k + 1) rest st1 with
    | error e => simp only [ha] at h; exact absurd h (by simp)
    | ok pa =>
    obtain ⟨out2, st2⟩ := pa
    simp only [ha, Except.ok.injEq, Prod.mk.injEq] at h
    obtain ⟨hout, hst⟩ := h
    subst hout; subst hst
    have f1 := processRecord_frame ui gi (wh k) p st out1 st1 u hr
      (hne p (by simp))
    have f2 := ih (k + 1) st1 out2 st2 ha
      (fun q hq uidJ hx => hne q (by simp [hq]) uidJ hx)
    refine ⟨f2.1.trans f1.1, ?_⟩
    intro x hx
    rcases List.mem_append.mp hx with hx1 | hx2
    · exact f1.2 x hx1
    · exact f2.2 x hx2

/-- C10: a tracked user id that appears in no record of the cycle's batch
presence result keeps its `last_states` entry unchanged, and no webhook call
is made for it in that cycle. -/
theorem C10_untracked_user_frame (ui : String → Except PyErr (Json × Json))
    (gi : Json → Except PyErr Json) (wh : Nat → HttpOutcome)
    (outcome : HttpOutcome) (st : StateTable) (u : String)
    (presences : Json) (records : List Json)
    (out : List (String × Embed)) (st' : StateTable)
    (hpres : get_presence outcome = .ok presences)
    (hiter : presences.pyIterList = .ok records)
    (hne : ∀ p ∈ records, ∀ uidJ, p.item "userId" = .ok uidJ → uidJ.pyStr ≠ u)
    (hrun : runCycle ui gi wh outcome st = .ok (out, st')) :
    stLookup st' u = stLookup st u ∧ ∀ x ∈ out, x.1 ≠ u := by
  unfold runCycle at hrun
  simp only [hpres, hiter] at hrun
  exact processAll_frame ui gi wh records 0 st out st' u hrun hne

/-- C1 (counterexample): with an empty table, a record observing state `3`
(a value outside 0/1/2, e.g. Roblox's "in Studio") differs from the table's
absent entry, yet the cycle emits zero notifications — it only updates the
table — contradicting "a notification is emitted if and only if the observed
state differs, for every possible observed state value". -/
theorem C1_counterexample :
    (Json.num 3).pyEq (stGetD [] "5") = false ∧
    processRecord uiConst giConst (.ok (jobj []))
      (jobj [("userId", .str "5"), ("userPresenceType", .num 3)]) [] =
      .ok ([], [("5", .num 3)]) := by
  constructor
  · rfl
  · rfl

/-- C1 (amended): for a processed record, a notification is emitted exactly
once if and only if the observed state differs (Python `!=`) from the
table's current value for that user (`None` when absent) AND the observed
state compares equal (Python `==`) to 0, 1 or 2; any other changed state
emits nothing (though the table is still updated). -/
theorem C1_amended (ui : String → Except PyErr (Json × Json))
    (gi : Json → Except PyErr Json) (wh : HttpOutcome) (st : StateTable)
    (fs : JsonFields) (uid un dn : Json)
    (hu : Json.jLookup fs "userId" = some uid)
    (hui : ui uid.pyStr = .ok (un, dn))
    (hgi : ∀ v, ∃ g, gi v = .ok g) :
    ∃ out st', processRecord ui gi wh (.obj fs) st = .ok (out, st') ∧
      out.length =
        (if ((Json.jLookup fs "userPresenceType").getD (.num 0)).pyEq
              (stGetD st uid.pyStr) = false ∧
            (((Json.jLookup fs "userPresenceType").getD (.num 0)).pyEq
                (.num 0) = true ∨
             ((Json.jLookup fs "userPresenceType").getD (.num 0)).pyEq
                (.num 1) = true ∨
             ((Json.jLookup fs "userPresenceType").getD (.num 0)).pyEq
                (.num 2) = true)
         then 1 else 0) := by
  by_cases hpe : ((Json.jLookup fs "userPresenceType").getD (.num 0)).pyEq
      (stGetD st uid.pyStr) = true
  · refine ⟨[], st, processRecord_unchanged ui gi wh st fs uid hu hpe, ?_⟩
    simp [hpe]
  · have hdiff : ((Json.jLookup fs "userPresenceType").getD (.num 0)).pyEq
        (stGetD st uid.pyStr) = false := by simpa using hpe
    by_cases h0 : ((Json.jLookup fs "userPresenceType").getD (.num 0)).pyEq
        (.num 0) = true
    · refine ⟨_, _, processRecord_offline ui gi wh st fs uid un dn _ hu rfl
        hui hdiff h0, ?_⟩
      simp [hdiff, h0]
    · by_cases h1 : ((Json.jLookup fs "userPresenceType").getD (.num 0)).pyEq
          (.num 1) = true
      · refine ⟨_, _, processRecord_online ui gi wh st fs uid un dn _ hu rfl
          hui hdiff h1, ?_⟩
        simp [hdiff, h1]
      · by_cases h2 : ((Json.jLookup fs "userPresenceType").getD
            (.num 0)).pyEq (.num 2) = true
        · obtain ⟨g, e, _, hp⟩ := processRecord_ingame ui gi wh st fs uid
            un dn _ hu rfl hui hgi hdiff h2
          refine ⟨_, _, hp, ?_⟩
          simp [hdiff, h2]
        · refine ⟨_, _, processRecord_silent ui gi wh st fs uid un dn _ hu rfl
            hui hdiff (by simpa using h0) (by simpa using h1)
            (by simpa using h2), ?_⟩
          simp [hdiff, by simpa using h0, by simpa using h1, by simpa using h2]

/-- C1 witness: the first-ever observation of user "5" at state 1 emits
exactly one notification. -/
theorem C1_witness :
    ∃ out st', processRecord uiConst giConst (.ok (jobj []))
        (.obj (.ofList [("userId", .str "5"), ("userPresenceType", .num 1)]))
        [] = .ok (out, st') ∧
      out.length =
        (if ((Json.jLookup (.ofList [("userId", .str "5"),
              ("userPresenceType", .num 1)]) "userPresenceType").getD
              (.num 0)).pyEq (stGetD [] (Json.str "5").pyStr) = false ∧
            (((Json.jLookup (.ofList [("userId", .str "5"),
                ("userPresenceType", .num 1)]) "userPresenceType").getD
                (.num 0)).pyEq (.num 0) = true ∨
             ((Json.jLookup (.ofList [("userId", .str "5"),
                ("userPresenceType", .num 1)]) "userPresenceType").getD
                (.num 0)).pyEq (.num 1) = true ∨
             ((Json.jLookup (.ofList [("userId", .str "5"),
                ("userPresenceType", .num 1)]) "userPresenceType").getD
                (.num 0)).pyEq (.num 2) = true)
         then 1 else 0) :=
  C1_amended uiConst giConst (.ok (jobj [])) [] (.ofList [("userId", .str "5"),
    ("userPresenceType", .num 1)]) (.str "5") .null .null rfl rfl
    (fun _ => ⟨.str "Unknown Game", rfl⟩)

/-- C2: when a record's state differs from the table entry, the processed
record always ends with `last_states[user_id] = state`, whatever values the
profile fetch (`ui`, including its `(None, None)` failure fallback) and the
game-name fetch (`gi`, including its `"Unknown Game"` failure fallback)
produced; and the webhook delivery outcome (`wh` versus `wh'`, success or
failure) changes nothing about the result — so a notifier failure cannot
affect `last_states` or any later cycle. -/
theorem C2_update_unconditional (ui : String → Except PyErr (Json × Json))
    (gi : Json → Except PyErr Json) (wh wh' : HttpOutcome) (st : StateTable)
    (fs : JsonFields) (uid un dn : Json)
    (hu : Json.jLookup fs "userId" = some uid)
    (hui : ui uid.pyStr = .ok (un, dn))
    (hgi : ∀ v, ∃ g, gi v = .ok g)
    (hdiff : ((Json.jLookup fs "userPresenceType").getD (.num 0)).pyEq
      (stGetD st uid.pyStr) = false) :
    (∃ out st', processRecord ui gi wh (.obj fs) st = .ok (out, st') ∧
       stLookup st' uid.pyStr =
         some ((Json.jLookup fs "userPresenceType").getD (.num 0))) ∧
    processRecord ui gi wh (.obj fs) st =
      processRecord ui gi wh' (.obj fs) st := by
  constructor
  · by_cases h0 : ((Json.jLookup fs "userPresenceType").getD (.num 0)).pyEq
        (.num 0) = true
    · exact ⟨_, _, processRecord_offline ui gi wh st fs uid un dn _ hu rfl
        hui hdiff h0, stLookup_stSet_self st uid.pyStr _⟩
    · by_cases h1 : ((Json.jLookup fs "userPresenceType").getD (.num 0)).pyEq
          (.num 1) = true
      · exact ⟨_, _, processRecord_online ui gi wh st fs uid un dn _ hu rfl
          hui hdiff h1, stLookup_stSet_self st uid.pyStr _⟩
      · by_cases h2 : ((Json.jLookup fs "userPresenceType").getD
            (.num 0)).pyEq (.num 2) = true
        · obtain ⟨g, e, _, hp⟩ := processRecord_ingame ui gi wh st fs uid
            un dn _ hu rfl hui hgi hdiff h2
          exact ⟨_, _, hp, stLookup_stSet_self st uid.pyStr _⟩
        · exact ⟨_, _, processRecord_silent ui gi wh st fs uid un dn _ hu rfl
            hui hdiff (by simpa using h0) (by simpa using h1)
            (by simpa using h2), stLookup_stSet_self st uid.pyStr _⟩
  · rfl

/-- C2 witness: user "5" goes in-game while both the profile fetch and the
game-name fetch report their failure fallbacks and the webhook POST fails;
the table entry still becomes 2. -/
theorem C2_witness :
    (∃ out st', processRecord uiConst giConst .reqError
        (.obj (.ofList [("userId", .str "5"), ("userPresenceType", .num 2),
          ("universeId", .num 99)])) [("5", .num 1)] = .ok (out, st') ∧
      stLookup st' (Json.str "5").pyStr =
        some ((Json.jLookup (.ofList [("userId", .str "5"),
          ("userPresenceType", .num 2), ("universeId", .num 99)])
          "userPresenceType").getD (.num 0))) ∧
    processRecord uiConst giConst .reqError
        (.obj (.ofList [("userId", .str "5"), ("userPresenceType", .num 2),
          ("universeId", .num 99)])) [("5", .num 1)] =
      processRecord uiConst giConst (.ok (jobj []))
        (.obj (.ofList [("userId", .str "5"), ("userPresenceType", .num 2),
          ("universeId", .num 99)])) [("5", .num 1)] :=
  C2_update_unconditional uiConst giConst .reqError (.ok (jobj []))
    [("5", .num 1)] (.ofList [("userId", .str "5"),
    ("userPresenceType", .num 2), ("universeId", .num 99)]) (.str "5")
    .null .null rfl rfl (fun _ => ⟨.str "Unknown Game", rfl⟩) rfl

/-- C3 (counterexample): a record whose `placeId` field is present with
value `0` and whose `gameId` is present with value `20` has both identifiers
present, yet Python's truthiness test `if place_id and game_id:` fails on
`0`, so the embed is the private-join variant with no join link —
contradicting "if both are present the payload contains a join link". -/
theorem C3_counterexample :
    (Json.jLookup (.ofList [("userId", .str "5"), ("placeId", .num 0),
      ("gameId", .num 20)]) "placeId").isSome = true ∧
    (Json.jLookup (.ofList [("userId", .str "5"), ("placeId", .num 0),
      ("gameId", .num 20)]) "gameId").isSome = true ∧
    build_embed_in_game (jobj [("userId", .str "5"), ("placeId", .num 0),
        ("gameId", .num 20)]) (.str "G") (.str "bob") .null =
      .ok { title := "bob is in a game", color := 0x00FFFF,
            description := some "Joins are off, check badges for hint of game." } :=
  ⟨rfl, rfl, rfl⟩

/-- C3 (amended): the in-game embed contains the join link
`.../start?placeId=<placeId>&gameId=<gameId>` and a game-page link exactly
when both `placeId` and `gameId` are present AND truthy (non-null, non-zero,
non-empty); otherwise it is the private "is in a game" variant with no join
link. -/
theorem C3_amended (fs : JsonFields) (gname un dn uid : Json)
    (hu : Json.jLookup fs "userId" = some uid) :
    ∃ e, build_embed_in_game (.obj fs) gname un dn = .ok e ∧
      (((Json.jLookup fs "placeId").getD .null).truthy = true →
       ((Json.jLookup fs "gameId").getD .null).truthy = true →
        e.url = some ("https://www.roblox.com/games/start?placeId=" ++
          ((Json.jLookup fs "placeId").getD .null).pyStr ++ "&gameId=" ++
          ((Json.jLookup fs "gameId").getD .null).pyStr) ∧
        e.fields.map EmbedField.name = ["Join Server", "Game Page"] ∧
        e.title = (Json.pyOr dn un).pyStr ++ " is now in-game") ∧
      ((((Json.jLookup fs "placeId").getD .null).truthy = false ∨
        ((Json.jLookup fs "gameId").getD .null).truthy = false) →
        e.url = none ∧ e.fields = [] ∧
        e.title = (Json.pyOr dn un).pyStr ++ " is in a game" ∧
        e.description = some "Joins are off, check badges for hint of game.") := by
  refine ⟨_, build_embed_eq fs gname un dn uid hu, ?_, ?_⟩
  · intro hp hg
    simp [hp, hg]
  · intro hor
    rcases hor with hp | hg
    · simp [hp]
    · simp [hg]

/-- C3 witness: with `placeId = 10` and `gameId = 20` both truthy, the
embed carries the join link and the game-page field. -/
theorem C3_witness :
    ∃ e, build_embed_in_game (.obj (.ofList [("userId", .str "5"),
        ("placeId", .num 10), ("gameId", .num 20)])) (.str "G") (.str "bob")
        .null = .ok e ∧
      (((Json.jLookup (.ofList [("userId", .str "5"), ("placeId", .num 10),
          ("gameId", .num 20)]) "placeId").getD .null).truthy = true →
       ((Json.jLookup (.ofList [("userId", .str "5"), ("placeId", .num 10),
          ("gameId", .num 20)]) "gameId").getD .null).truthy = true →
        e.url = some ("https://www.roblox.com/games/start?placeId=" ++
          ((Json.jLookup (.ofList [("userId", .str "5"), ("placeId", .num 10),
            ("gameId", .num 20)]) "placeId").getD .null).pyStr ++ "&gameId=" ++
          ((Json.jLookup (.ofList [("userId", .str "5"), ("placeId", .num 10),
            ("gameId", .num 20)]) "gameId").getD .null).pyStr) ∧
        e.fields.map EmbedField.name = ["Join Server", "Game Page"] ∧
        e.title = (Json.pyOr .null (.str "bob")).pyStr ++ " is now in-game") ∧
      ((((Json.jLookup (.ofList [("userId", .str "5"), ("placeId", .num 10),
          ("gameId", .num 20)]) "placeId").getD .null).truthy = false ∨
        ((Json.jLookup (.ofList [("userId", .str "5"), ("placeId", .num 10),
          ("gameId", .num 20)]) "gameId").getD .null).truthy = false) →
        e.url = none ∧ e.fields = [] ∧
        e.title = (Json.pyOr .null (.str "bob")).pyStr ++ " is in a game" ∧
        e.description = some "Joins are off, check badges for hint of game.") :=
  C3_amended (.ofList [("userId", .str "5"), ("placeId", .num 10),
    ("gameId", .num 20)]) (.str "G") (.str "bob") .null (.str "5") rfl

/-- C4 (counterexample): a well-delivered response whose single presence
record lacks the `userId` field makes line 174's `presence['userId']` raise
`KeyError` inside the polling loop — the error is NOT caught at the fetch
boundary and crashes the process, contradicting the claim. -/
theorem C4_counterexample :
    runCycle uiConst giConst whConst
      (.ok (jobj [("userPresences", jarr [jobj [("userPresenceType", .num 1)]])]))
      [] = .error .keyError := rfl

/-- C4 (amended): network/HTTP/JSON-decode failures (`RequestException`) are
caught at the fetch boundary and become the empty-list fallback, but shape
errors are not: a non-dict body raises `AttributeError` inside
`get_presence`, a non-list `userPresences` raises `TypeError` when the loop
iterates it, and a record without `userId` raises `KeyError` at line 174 —
all three propagate out of the loop. -/
theorem C4_amended :
    (∀ ui gi wh st, runCycle ui gi wh .reqError st = .ok ([], st)) ∧
    get_presence (.ok (.num 3)) = .error .attributeError ∧
    runCycle uiConst giConst whConst
      (.ok (jobj [("userPresences", .num 5)])) [] = .error .typeError ∧
    runCycle uiConst giConst whConst
      (.ok (jobj [("userPresences", jarr [jobj [("gameId", .num 7)]])])) [] =
      .error .keyError := by
  refine ⟨?_, rfl, rfl, rfl⟩
  intro ui gi wh st
  rfl

/-- C5 (counterexample): the notifier's POST to the Discord webhook is made
with module-level `requests.post` (Main.py line 109), not through the
session that carries the retry adapter — contradicting "every outbound HTTP
call is issued through the client configured with the retry policy". -/
theorem C5_counterexample :
    clientOf .webhookPost = .bareRequests ∧
    HttpClient.bareRequests ≠ .authenticatedSession := by
  exact ⟨rfl, by decide⟩

/-- C5 (amended): the CSRF seed and the three resource fetches — but not
the notifier's webhook POST — go through the retry-configured session, and
that session's retry policy is exactly the one the spec states (3 attempts,
backoff factor 1, statuses {429, 500, 502, 503, 504}, methods {GET, HEAD,
OPTIONS, POST}). -/
theorem C5_amended :
    (∀ c, clientOf c = .authenticatedSession ↔ c ≠ .webhookPost) ∧
    retry_strategy.total = specRetryPolicy.total ∧
    retry_strategy.backoff_factor = specRetryPolicy.backoff_factor ∧
    (∀ s, s ∈ retry_strategy.status_forcelist ↔
      s ∈ specRetryPolicy.status_forcelist) ∧
    (∀ m, m ∈ retry_strategy.allowed_methods ↔
      m ∈ specRetryPolicy.allowed_methods) := by
  refine ⟨?_, rfl, rfl, ?_, ?_⟩
  · intro c
    cases c <;> simp [clientOf]
  · intro s
    simp [retry_strategy, specRetryPolicy]
  · intro m
    constructor
    · intro hm
      simp [retry_strategy] at hm
      rcases hm with h | h | h | h <;> simp [specRetryPolicy, h]
    · intro hm
      simp [specRetryPolicy] at hm
      rcases hm with h | h | h | h <;> simp [retry_strategy, h]

/-- C6 (counterexample): user "5" goes in-game (state 2) while the profile
fetch has failed (fallback `(None, None)`); a notification IS emitted, but
its title is the f-string rendering "None is now in-game" — the raw user id
"5" is not used as the display fallback, contradicting "this must hold for
every resulting state, including the in-game variants". -/
theorem C6_counterexample :
    get_user_info .reqError = .ok (.null, .null) ∧
    processRecord (fun _ => get_user_info .reqError) giConst (.ok (jobj []))
      (jobj [("userId", .str "5"), ("userPresenceType", .num 2),
        ("placeId", .num 10), ("gameId", .num 20)]) [] =
      .ok ([("5",
        { title := "None is now in-game", color := 0x00FF00,
          description := some "**Unknown Game**",
          url := some "https://www.roblox.com/games/start?placeId=10&gameId=20",
          fields := [
            { name := "Join Server",
              value := "[Click Here](https://www.roblox.com/games/start?placeId=10&gameId=20)",
              inline := true },
            { name := "Game Page",
              value := "[View Game](https://www.roblox.com/games/10)",
              inline := true }] })],
        [("5", .num 2)]) ∧
    ("5".toList.isPrefixOf "None is now in-game".toList) = false :=
  ⟨rfl, rfl, by decide⟩

/-- C6 (amended): when the profile fetch returns its failure fallback
`(None, None)` and the state changed, a notification is still emitted for
every resulting state in {0, 1, 2}; the Offline and Online titles fall back
to the raw user id, but the in-game titles fall back to the f-string
rendering of Python `None` ("None is now in-game" / "None is in a game"),
not to the raw user id. -/
theorem C6_amended (ui : String → Except PyErr (Json × Json))
    (gi : Json → Except PyErr Json) (wh : HttpOutcome) (st : StateTable)
    (fs : JsonFields) (uid : Json)
    (hu : Json.jLookup fs "userId" = some uid)
    (hui : ui uid.pyStr = .ok (.null, .null))
    (hgi : ∀ v, ∃ g, gi v = .ok g)
    (hdiff : ((Json.jLookup fs "userPresenceType").getD (.num 0)).pyEq
      (stGetD st uid.pyStr) = false)
    (h012 : ((Json.jLookup fs "userPresenceType").getD (.num 0)).pyEq
        (.num 0) = true ∨
      ((Json.jLookup fs "userPresenceType").getD (.num 0)).pyEq
        (.num 1) = true ∨
      ((Json.jLookup fs "userPresenceType").getD (.num 0)).pyEq
        (.num 2) = true) :
    ∃ e st', processRecord ui gi wh (.obj fs) st =
        .ok ([(uid.pyStr, e)], st') ∧
      (((Json.jLookup fs "userPresenceType").getD (.num 0)).pyEq
          (.num 0) = true → e.title = uid.pyStr ++ " is Offline") ∧
      (((Json.jLookup fs "userPresenceType").getD (.num 0)).pyEq
          (.num 1) = true →
        e.title = uid.pyStr ++ " is Online (not in-game)") ∧
      (((Json.jLookup fs "userPresenceType").getD (.num 0)).pyEq
          (.num 2) = true →
        e.title = "None is now in-game" ∨ e.title = "None is in a game") := by
  rcases h012 with h0 | h1 | h2
  · refine ⟨_, _, processRecord_offline ui gi wh st fs uid .null .null _ hu
      rfl hui hdiff h0, ?_, ?_, ?_⟩
    · intro _
      simp [pyOrStr, Json.pyOr, Json.truthy]
    · intro hx
      rw [pyEq_num_ne _ 0 1 (by decide) h0] at hx
      exact absurd hx (by simp)
    · intro hx
      rw [pyEq_num_ne _ 0 2 (by decide) h0] at hx
      exact absurd hx (by simp)
  · refine ⟨_, _, processRecord_online ui gi wh st fs uid .null .null _ hu
      rfl hui hdiff h1, ?_, ?_, ?_⟩
    · intro hx
      rw [pyEq_num_ne _ 1 0 (by decide) h1] at hx
      exact absurd hx (by simp)
    · intro _
      simp [pyOrStr, Json.pyOr, Json.truthy]
    · intro hx
      rw [pyEq_num_ne _ 1 2 (by decide) h1] at hx
      exact absurd hx (by simp)
  · obtain ⟨g, e, hbe, hp⟩ := processRecord_ingame ui gi wh st fs uid
      .null .null _ hu rfl hui hgi hdiff h2
    rw [build_embed_eq fs g .null .null uid hu, Except.ok.injEq] at hbe
    refine ⟨_, _, hp, ?_, ?_, ?_⟩
    · intro hx
      rw [pyEq_num_ne _ 2 0 (by decide) h2] at hx
      exact absurd hx (by simp)
    · intro hx
      rw [pyEq_num_ne _ 2 1 (by decide) h2] at hx
      exact absurd hx (by simp)
    · intro _
      subst hbe
      by_cases hc : (((Json.jLookup fs "placeId").getD .null).truthy &&
          ((Json.jLookup fs "gameId").getD .null).truthy) = true
      · left
        rw [if_pos hc]
        rfl
      · right
        rw [if_neg hc]
        rfl

/-- C6 witness: in-game transition with profile-fetch fallback emits a
notification whose title is one of the two "None …" in-game variants. -/
theorem C6_witness :
    ∃ e st', processRecord uiConst giConst (.ok (jobj []))
        (.obj (.ofList [("userId", .str "5"), ("userPresenceType", .num 2),
          ("placeId", .num 10), ("gameId", .num 20)])) [] =
        .ok ([((Json.str "5").pyStr, e)], st') ∧
      (((Json.jLookup (.ofList [("userId", .str "5"),
          ("userPresenceType", .num 2), ("placeId", .num 10),
          ("gameId", .num 20)]) "userPresenceType").getD (.num 0)).pyEq
          (.num 0) = true →
        e.title = (Json.str "5").pyStr ++ " is Offline") ∧
      (((Json.jLookup (.ofList [("userId", .str "5"),
          ("userPresenceType", .num 2), ("placeId", .num 10),
          ("gameId", .num 20)]) "userPresenceType").getD (.num 0)).pyEq
          (.num 1) = true →
        e.title = (Json.str "5").pyStr ++ " is Online (not in-game)") ∧
      (((Json.jLookup (.ofList [("userId", .str "5"),
          ("userPresenceType", .num 2), ("placeId", .num 10),
          ("gameId", .num 20)]) "userPresenceType").getD (.num 0)).pyEq
          (.num 2) = true →
        e.title = "None is now in-game" ∨ e.title = "None is in a game") :=
  C6_amended uiConst giConst (.ok (jobj [])) []
    (.ofList [("userId", .str "5"), ("userPresenceType", .num 2),
      ("placeId", .num 10), ("gameId", .num 20)]) (.str "5") rfl rfl
    (fun _ => ⟨.str "Unknown Game", rfl⟩) rfl (.inr (.inr rfl))

/-- C7: each fetcher maps a `RequestException` to its documented fallback —
empty list for the presence fetch, `"Unknown Game"` for the game-name fetch
(also when `data` is absent, empty, or its first entry has no `name`), and
`(None, None)` for the user-profile fetch. -/
theorem C7_fetcher_fallbacks :
    get_presence .reqError = .ok (jarr []) ∧
    get_user_info .reqError = .ok (.null, .null) ∧
    get_game_info .reqError = .ok (.str "Unknown Game") ∧
    (∀ fs, Json.jLookup fs "data" = none →
      get_game_info (.ok (.obj fs)) = .ok (.str "Unknown Game")) ∧
    (∀ fs, Json.jLookup fs "data" = some (jarr []) →
      get_game_info (.ok (.obj fs)) = .ok (.str "Unknown Game")) ∧
    (∀ fs gfs, Json.jLookup fs "data" = some (jarr [.obj gfs]) →
      Json.jLookup gfs "name" = none →
      get_game_info (.ok (.obj fs)) = .ok (.str "Unknown Game")) := by
  refine ⟨rfl, rfl, rfl, ?_, ?_, ?_⟩
  · intro fs h
    unfold get_game_info
    simp [Json.dictGetD, h, jarr, JsonList.ofList, Json.truthy]
  · intro fs h
    unfold get_game_info
    simp [Json.dictGetD, h, jarr, JsonList.ofList, Json.truthy]
  · intro fs gfs h hn
    unfold get_game_info
    simp [Json.dictGetD, h, hn, jarr, JsonList.ofList, JsonList.toList,
      Json.truthy, Json.index]

/-- C7 witness: a well-formed response whose `data` list is empty yields
`"Unknown Game"`. -/
theorem C7_witness :
    get_game_info (.ok (.obj (.ofList [("data", jarr [])]))) =
      .ok (.str "Unknown Game") :=
  C7_fetcher_fallbacks.2.2.2.2.1 (.ofList [("data", jarr [])]) rfl

/-- C8: whenever the batch presence fetch yields an empty list — in
particular on the fetch-failure fallback — the cycle leaves `last_states`
untouched and makes no webhook call. -/
theorem C8_empty_fetch_frame (ui : String → Except PyErr (Json × Json))
    (gi : Json → Except PyErr Json) (wh : Nat → HttpOutcome)
    (outcome : HttpOutcome) (st : StateTable)
    (h : get_presence outcome = .ok (jarr [])) :
    runCycle ui gi wh outcome st = .ok ([], st) := by
  unfold runCycle
  rw [h]
  rfl

/-- C8 witness: a failed batch presence fetch leaves a non-trivial table
unchanged and emits nothing. -/
theorem C8_witness :
    runCycle uiConst giConst whConst .reqError [("5", .num 1)] =
      .ok ([], [("5", .num 1)]) :=
  C8_empty_fetch_frame uiConst giConst whConst .reqError [("5", .num 1)] rfl

/-- C9: a record with `userId` but no `userPresenceType` field is treated
as Offline (state 0): when 0 differs from the table's value for that user,
exactly one Offline notification is emitted and the entry is set to 0. -/
theorem C9_missing_type_offline (ui : String → Except PyErr (Json × Json))
    (gi : Json → Except PyErr Json) (wh : HttpOutcome) (st : StateTable)
    (fs : JsonFields) (uid un dn : Json)
    (hu : Json.jLookup fs "userId" = some uid)
    (ht : Json.jLookup fs "userPresenceType" = none)
    (hui : ui uid.pyStr = .ok (un, dn))
    (hdiff : (Json.num 0).pyEq (stGetD st uid.pyStr) = false) :
    processRecord ui gi wh (.obj fs) st =
      .ok ([(uid.pyStr,
            { title := pyOrStr dn un uid.pyStr ++ " is Offline",
              color := 0xFF0000 })],
           stSet st uid.pyStr (.num 0)) := by
  have hst0 : (Json.jLookup fs "userPresenceType").getD (.num 0) = .num 0 := by
    rw [ht]
    rfl
  exact processRecord_offline ui gi wh st fs uid un dn (.num 0) hu hst0 hui
    hdiff rfl

/-- C9 witness: user "5" previously Online, record without
`userPresenceType`: one Offline notification, entry set to 0. -/
theorem C9_witness :
    processRecord uiNamed giConst (.ok (jobj []))
      (.obj (.ofList [("userId", .str "5")])) [("5", .num 1)] =
      .ok ([((Json.str "5").pyStr,
            { title := pyOrStr (.str "Bob") (.str "bob") (Json.str "5").pyStr ++
                " is Offline",
              color := 0xFF0000 })],
           stSet [("5", .num 1)] (Json.str "5").pyStr (.num 0)) :=
  C9_missing_type_offline uiNamed giConst (.ok (jobj [])) [("5", .num 1)]
    (.ofList [("userId", .str "5")]) (.str "5") (.str "bob") (.str "Bob")
    rfl rfl rfl rfl

/-- C10 witness: a cycle whose only record is for user "7" leaves tracked
user "5"'s entry unchanged and emits no notification tagged "5". -/
theorem C10_witness :
    stLookup [("5", Json.num 1), ("7", Json.num 1)] "5" =
      stLookup [("5", Json.num 1)] "5" ∧
    ∀ x ∈ [("7",
      ({ title := "7 is Online (not in-game)", color := 0xFFFF00 } : Embed))],
      Prod.fst x ≠ "5" :=
  C10_untracked_user_frame uiConst giConst whConst
    (.ok (jobj [("userPresences",
      jarr [jobj [("userId", .str "7"), ("userPresenceType", .num 1)]])]))
    [("5", .num 1)] "5"
    (jarr [jobj [("userId", .str "7"), ("userPresenceType", .num 1)]])
    [jobj [("userId", .str "7"), ("userPresenceType", .num 1)]]
    [("7", { title := "7 is Online (not in-game)", color := 0xFFFF00 })]
    [("5", .num 1), ("7", .num 1)]
    rfl rfl
    (by
      intro p hp uidJ hx
      simp only [List.mem_singleton] at hp
      subst hp
      have h7 : uidJ = Json.str "7" := by
        have hx' : Except.ok (Json.str "7") = Except.ok uidJ := hx
        injection hx' with h
        exact h.symm
      subst h7
      decide)
    rfl
